import Mathlib

/-!
Shallow embedding of the gadalarbot Minecraft bot controller.

Sources embedded here:
- the class MinecraftBot of the bot module (start, stop, the event handlers,
  startWandering / wanderStep, shouldSleep, checkSleepConditions,
  getBotStatus, forceWakeUpNow, updateSettings);
- the class MemStorage of the storage module (addConsoleMessage and the
  default settings);
- the shared schema records (BotSettings, BotStatus, ConsoleMessage).

Modelling conventions: machine numbers are Int, entity positions are
rationals carrying the floor calls of the source explicitly; the mineflayer
session object is a record of the fields the controller reads; callbacks and
timers are events applied atomically (the source is a single cooperative
scheduling context, and no controller method awaits between its own state
mutations); fallible external calls are Option or Bool parameters; the wall
clock timestamp of a log entry is abstracted to the empty string.
-/

namespace MinecraftBot

/-- Severity of a console message (shared schema, consoleMessageSchema). -/
inductive MsgType where
  | info
  | warning
  | error
deriving DecidableEq, Repr

/-- A console log entry (shared schema, consoleMessageSchema). -/
structure ConsoleMessage where
  timestamp : String
  message : String
  type : MsgType
deriving DecidableEq, Repr

/-- MemStorage.addConsoleMessage: push the message, then drop the oldest
entry when more than 100 are held. -/
def addConsoleMessage (log : List ConsoleMessage) (m : ConsoleMessage) :
    List ConsoleMessage :=
  let pushed := log ++ [m]
  if pushed.length > 100 then pushed.tail else pushed

/-- Bot settings (shared schema, botSettingsSchema). -/
structure BotSettings where
  serverAddress : String
  botUsername : String
  posX : Int
  posY : Int
  posZ : Int
deriving DecidableEq, Repr

/-- The default settings installed by the MemStorage constructor. -/
def defaultSettings : BotSettings :=
  { serverAddress := "mc.example.com", botUsername := "MinecraftBot",
    posX := 0, posY := 64, posZ := 0 }

/-- An integer coordinate (home position, floored status position). -/
structure Coord where
  x : Int
  y : Int
  z : Int
deriving DecidableEq, Repr

/-- A raw entity position as reported by the session; the source floors the
components wherever it consumes them. -/
structure Vec3q where
  x : ℚ
  y : ℚ
  z : ℚ
deriving DecidableEq, Repr

/-- The fields of the mineflayer session object that the controller reads:
entity position (absent until spawn), sleep flag, time of day (the time
object may be absent), the player-list keys (these include the bot itself),
and the bot username. -/
structure BotSession where
  entityPos : Option Vec3q
  isSleeping : Bool
  timeOfDay : Option Int
  players : List String
  username : String
deriving DecidableEq, Repr

/-- Controller state: the private fields of class MinecraftBot together with
the two MemStorage fields the controller reads and writes (botSettings and
consoleMessages).  timeoutId abstracts the pending wander timeout handle to
its presence.  settings is modelled as always present because the
constructor runs initialize(), which loads it from storage. -/
structure ControllerState where
  bot : Option BotSession
  settings : BotSettings
  storedSettings : BotSettings
  running : Bool
  homePosition : Option Coord
  timeoutId : Bool
  log : List ConsoleMessage
deriving DecidableEq, Repr

/-- Build a console message; the wall clock timestamp is abstracted. -/
def mkMsg (message : String) (t : MsgType) : ConsoleMessage :=
  { timestamp := "", message := message, type := t }

/-- The controller method addConsoleMessage: append one entry to storage
(the broadcast to websocket clients has no effect on controller state). -/
def logMsg (s : ControllerState) (message : String) (t : MsgType) :
    ControllerState :=
  { s with log := addConsoleMessage s.log (mkMsg message t) }

/-- The placeholder connect target refused by start(). -/
def placeholderAddress : String := "mc.example.com"

def invalidAddrText1 : String :=
  "ERROR: Invalid server address. Please update settings with a real Minecraft server address."

def invalidAddrText2 : String :=
  "The current address \x27mc.example.com\x27 is just a placeholder and doesn\x27t exist."

/-- start(): no-op with a warning when already running; refetch settings;
refuse an empty or placeholder address with two error log entries; otherwise
mark running, log the two progress lines, and create the session.
createBotResult models the outcome of mineflayer.createBot: none means the
call threw, landing in the catch clause (which logs and resets running but
does not touch the bot field), some b is the created session.  The armed
10 s connection timeout, the spawn handler and the 2 s wake-up interval are
modelled as separate events below. -/
def start (s : ControllerState) (createBotResult : Option BotSession) :
    ControllerState :=
  if s.running then
    logMsg s "Bot is already running" MsgType.warning
  else
    let s := { s with settings := s.storedSettings }
    if s.settings.serverAddress = "" ∨
        s.settings.serverAddress = placeholderAddress then
      logMsg (logMsg s invalidAddrText1 MsgType.error) invalidAddrText2
        MsgType.error
    else
      let s := { s with running := true }
      let s := logMsg s ("Starting bot with username " ++ s.settings.botUsername)
        MsgType.info
      let s := logMsg s ("Connecting to server " ++ s.settings.serverAddress ++ "...")
        MsgType.info
      match createBotResult with
      | none => logMsg { s with running := false } "CRITICAL ERROR STARTING BOT"
          MsgType.error
      | some b => { s with bot := some b }

def stoppingText : String := "Stopping bot and disconnecting from server..."

def stoppedOkText : String := "Bot stopped successfully"

def alreadyStoppedText : String := "Bot is already stopped"

def quitErrText : String := "Error during bot.quit()"

/-- Externally visible actions of one stop() run, in order. -/
inductive StopEvent where
  | clearedTimeout
  | logged (m : ConsoleMessage)
  | setRunningFalse
  | quitCalled
deriving DecidableEq, Repr

/-- stop(): info log and return when not running; otherwise clear the
pending timeout, log, flip running to false, attempt bot.quit() when a
session exists (quitThrows models the quit call raising, which is caught
and logged), clear session and home, and log success.  Returns the new
state together with the ordered trace of visible actions.  In this
embedding stop is a total function: every fallible sub-operation is caught
exactly as in the try blocks of the source, so it never raises. -/
def stop (s : ControllerState) (quitThrows : Bool) :
    ControllerState × List StopEvent :=
  if s.running = false then
    (logMsg s alreadyStoppedText MsgType.info,
      [StopEvent.logged (mkMsg alreadyStoppedText MsgType.info)])
  else
    let clearEvs : List StopEvent :=
      if s.timeoutId then [StopEvent.clearedTimeout] else []
    let s1 : ControllerState := { s with timeoutId := false }
    let s2 := logMsg s1 stoppingText MsgType.info
    let s3 : ControllerState := { s2 with running := false }
    let quitEvs : List StopEvent :=
      match s3.bot, quitThrows with
      | some _, false => [StopEvent.quitCalled]
      | some _, true =>
          [StopEvent.quitCalled, StopEvent.logged (mkMsg quitErrText MsgType.error)]
      | none, _ => []
    let s4 :=
      match s3.bot, quitThrows with
      | some _, true => logMsg s3 quitErrText MsgType.error
      | _, _ => s3
    let s5 : ControllerState := { s4 with bot := none, homePosition := none }
    let s6 := logMsg s5 stoppedOkText MsgType.info
    (s6,
      clearEvs
        ++ [StopEvent.logged (mkMsg stoppingText MsgType.info),
            StopEvent.setRunningFalse]
        ++ quitEvs
        ++ [StopEvent.logged (mkMsg stoppedOkText MsgType.info)])

/-- updateSettings: replace the cached and stored settings, log, and when
running with a home set move the home to the new coordinates. -/
def updateSettings (s : ControllerState) (ns : BotSettings) : ControllerState :=
  let s := { s with settings := ns, storedSettings := ns }
  let s := logMsg s "Bot settings updated" MsgType.info
  if s.running && s.homePosition.isSome then
    logMsg { s with homePosition := some { x := ns.posX, y := ns.posY, z := ns.posZ } }
      "Home position updated" MsgType.info
  else s

/-- Whether a session exists and its entity has appeared (the condition the
connection timeout callback negates). -/
def botHasEntity (s : ControllerState) : Bool :=
  match s.bot with
  | none => false
  | some b => b.entityPos.isSome

/-- The 10 s connection timeout callback: when still running without a
spawned entity, log the failure and roll back running and session. -/
def connectionTimeoutFire (s : ControllerState) : ControllerState :=
  if s.running && !(botHasEntity s) then
    let s := logMsg s "CONNECTION FAILED" MsgType.error
    let s := logMsg s
      "Please check the server address and make sure the Minecraft server is online."
      MsgType.error
    { s with running := false, bot := none }
  else s

/-- Classification of a connection error message; the source matches
ENOTFOUND and ETIMEDOUT substrings only to choose extra log lines. -/
inductive ErrKind where
  | enotfound
  | etimedout
  | other
deriving DecidableEq, Repr

/-- The session error handler installed at start: log, classify, and roll
back running and session.  It exists only while a session object does. -/
def connectionErrorFire (s : ControllerState) (kind : ErrKind) : ControllerState :=
  match s.bot with
  | none => s
  | some _ =>
    let s := logMsg s "CONNECTION ERROR" MsgType.error
    let s :=
      match kind with
      | ErrKind.enotfound =>
          logMsg (logMsg s "Server does not exist or cannot be reached." MsgType.error)
            "Please update settings with a valid Minecraft server address."
            MsgType.error
      | ErrKind.etimedout =>
          logMsg s "Connection timed out. Server may be offline or unreachable."
            MsgType.error
      | ErrKind.other => s
    { s with running := false, bot := none }

/-- The kicked handler: log, then roll back running and session. -/
def kickedFire (s : ControllerState) : ControllerState :=
  match s.bot with
  | none => s
  | some _ =>
    let s := logMsg s "Bot was kicked" MsgType.error
    { s with running := false, bot := none }

/-- The once-spawn handler: log, set the home position from the cached
settings, log again (the follow-up checks are modelled as separate events). -/
def spawnFire (s : ControllerState) : ControllerState :=
  match s.bot with
  | none => s
  | some _ =>
    let s := logMsg s "Bot has spawned in the world" MsgType.info
    let home : Coord :=
      { x := s.settings.posX, y := s.settings.posY, z := s.settings.posZ }
    let s := { s with homePosition := some home }
    logMsg s "Setting home position" MsgType.info

/-- One callback of the cooperative scheduler, applied atomically: the
public commands, the armed timers, the session event handlers, and an
arbitrary world-driven mutation of the session fields (position, players,
time, sleep flag) which never touches the controller fields. -/
inductive Event where
  | startCmd (createBotResult : Option BotSession)
  | stopCmd (quitThrows : Bool)
  | connTimeout
  | connError (kind : ErrKind)
  | kicked
  | spawn
  | settingsUpdate (ns : BotSettings)
  | sessionUpdate (f : BotSession → BotSession)

def applyEvent (s : ControllerState) : Event → ControllerState
  | Event.startCmd cb => start s cb
  | Event.stopCmd qt => (stop s qt).1
  | Event.connTimeout => connectionTimeoutFire s
  | Event.connError k => connectionErrorFire s k
  | Event.kicked => kickedFire s
  | Event.spawn => spawnFire s
  | Event.settingsUpdate ns => updateSettings s ns
  | Event.sessionUpdate f => { s with bot := s.bot.map f }

/-- The state after the constructor: storage defaults loaded, initialize()
has cached the settings and logged one line. -/
def initState : ControllerState :=
  { bot := none, settings := defaultSettings, storedSettings := defaultSettings,
    running := false, homePosition := none, timeoutId := false,
    log := [mkMsg "Bot controller initialized" MsgType.info] }

/-- The state reached from the constructor by a sequence of callbacks. -/
def reachable (evs : List Event) : ControllerState :=
  evs.foldl applyEvent initState

/-- The player-list keys other than the bot itself, as filtered by the
playerLeft handler, checkSleepConditions and forceWakeUpNow. -/
def otherPlayers (b : BotSession) : List String :=
  b.players.filter (fun name => name ≠ b.username)

/-- Whether the time object is present with a time of day in the sleep
window, the conjunction shared by shouldSleep and checkSleepConditions. -/
def isNightTime : Option Int → Bool
  | some t => decide (13000 ≤ t ∧ t ≤ 23000)
  | none => false

/-- shouldSleep(): night window and more than one player-list key
(the count here includes the bot itself). -/
def shouldSleep (s : ControllerState) : Bool :=
  match s.bot with
  | none => false
  | some b => isNightTime b.timeOfDay && decide (b.players.length > 1)

/-- The branch checkSleepConditions selects. -/
inductive SleepCheckAction where
  | noAction
  | emergencyWake
  | standardWake
  | seekBed
deriving DecidableEq, Repr

/-- checkSleepConditions(): emergency wake when in bed with no other
players; standard wake when in bed outside the night window; bed seeking
when out of bed in the night window with other players present. -/
def checkSleepConditions (s : ControllerState) : SleepCheckAction :=
  match s.bot with
  | none => SleepCheckAction.noAction
  | some b =>
    if s.running = false then SleepCheckAction.noAction
    else
      let isInBed := b.isSleeping
      let playersOnline := decide (0 < (otherPlayers b).length)
      let night := isNightTime b.timeOfDay
      if isInBed && !playersOnline then SleepCheckAction.emergencyWake
      else if isInBed && !night then SleepCheckAction.standardWake
      else if !isInBed && night && playersOnline then SleepCheckAction.seekBed
      else SleepCheckAction.noAction

/-- forceWakeUpNow(): true when a wake attempt is issued, which requires a
running session that is sleeping with zero other players; in every other
state the call is a no-op. -/
def forceWakeUpNow (s : ControllerState) : Bool :=
  match s.bot with
  | none => false
  | some b =>
    if s.running = false then false
    else if b.isSleeping then decide ((otherPlayers b).length = 0)
    else false

/-- The delays in milliseconds at which the playerLeft handler invokes
forceWakeUpNow, 0 standing for the direct synchronous call; the three
delayed calls are the setTimeout cascade of the handler. -/
def playerLeftWakeSchedule (s : ControllerState) : List Nat :=
  match s.bot with
  | none => []
  | some b =>
    if (otherPlayers b).length = 0 then [0, 500, 1500, 3000] else []

/-- The random wander offset: floor of a draw in [0,1) scaled by 3, minus
one, exactly the Math.floor(Math.random() * 3) - 1 of wanderStep. -/
def offsetOf (r : ℚ) : Int := ⌊r * 3⌋ - 1

/-- The randomized delay before the next wander step, 5000 plus a draw in
[0,1) scaled by 3000. -/
def wanderDelay (r : ℚ) : ℚ := 5000 + r * 3000

/-- What one wander step does. -/
inductive WanderAction where
  | restSeek
  | move (target : Coord) (delay : ℚ)
deriving DecidableEq, Repr

/-- wanderStep: none when session, home or running is missing (the step
clears its interval and exits); rest seeking when shouldSleep holds;
otherwise a direct move to home plus the two random offsets at the home
height, rescheduling itself after the randomized delay. -/
def wanderStep (s : ControllerState) (r1 r2 rd : ℚ) : Option WanderAction :=
  match s.bot, s.homePosition with
  | some _, some home =>
    if s.running = false then none
    else if shouldSleep s then some WanderAction.restSeek
    else
      some (WanderAction.move
        { x := home.x + offsetOf r1, y := home.y, z := home.z + offsetOf r2 }
        (wanderDelay rd))
  | _, _ => none

/-- The default snapshot built at the top of getBotStatus. -/
structure BotStatus where
  connected : Bool
  activity : String
  position : Coord
  time : String
  players : List String
  area : List Bool
deriving DecidableEq, Repr

def defaultStatus : BotStatus :=
  { connected := false, activity := "Idle", position := { x := 0, y := 0, z := 0 },
    time := "day", players := [], area := List.replicate 9 false }

/-- The day/night label of the snapshot. -/
def timeLabel (t : Int) : String :=
  if 0 ≤ t ∧ t < 13000 then "day" else "night"

/-- One cell of the 3x3 area grid: the floored bot column equals home plus
the cell offset on both axes. -/
def areaCell (home : Coord) (botX botZ : Int) (xOff zOff : Int) : Bool :=
  botX == home.x + xOff && botZ == home.z + zOff

/-- The unrolled 3x3 double loop of getBotStatus: outer z from -1 to 1,
inner x from -1 to 1, row-major index (z + 1) * 3 + (x + 1). -/
def areaMask (home : Coord) (botX botZ : Int) : List Bool :=
  [areaCell home botX botZ (-1) (-1), areaCell home botX botZ 0 (-1),
    areaCell home botX botZ 1 (-1),
    areaCell home botX botZ (-1) 0, areaCell home botX botZ 0 0,
    areaCell home botX botZ 1 0,
    areaCell home botX botZ (-1) 1, areaCell home botX botZ 0 1,
    areaCell home botX botZ 1 1]

/-- getBotStatus(): the default snapshot unless a session exists and
running holds; then activity from the sleep flag, the floored position,
the day/night label, the filtered player list, and the area mask when the
home is set.  The source reads the entity position unguarded inside the
area branch; the home is only ever set after spawn, when the entity
exists, so the default used for a missing entity there is unobservable. -/
def getBotStatus (s : ControllerState) : BotStatus :=
  match s.bot with
  | none => defaultStatus
  | some b =>
    if s.running then
      { connected := true
        activity := if b.isSleeping then "Sleeping" else "Wandering in 3x3 area"
        position :=
          match b.entityPos with
          | some p => { x := ⌊p.x⌋, y := ⌊p.y⌋, z := ⌊p.z⌋ }
          | none => { x := 0, y := 0, z := 0 }
        time :=
          match b.timeOfDay with
          | some t => timeLabel t
          | none => "day"
        players := b.players.filter (fun n => n ≠ b.username)
        area :=
          match s.homePosition with
          | some home =>
            let p := b.entityPos.getD { x := 0, y := 0, z := 0 }
            areaMask home ⌊p.x⌋ ⌊p.z⌋
          | none => List.replicate 9 false }
    else defaultStatus

/-! Concrete states used by the counterexamples and witnesses below. -/

/-- A connected, awake session at the home column. -/
def sampleSession : BotSession :=
  { entityPos := some { x := 0, y := 64, z := 0 }, isSleeping := false,
    timeOfDay := some 1000, players := ["MinecraftBot", "alice"],
    username := "MinecraftBot" }

def sampleHome : Coord := { x := 0, y := 64, z := 0 }

/-- A connected state with home set. -/
def connectedState : ControllerState :=
  { bot := some sampleSession, settings := defaultSettings,
    storedSettings := defaultSettings, running := true,
    homePosition := some sampleHome, timeoutId := false, log := [] }

/-- A session whose entity was pushed two blocks east of home. -/
def escapedSession : BotSession :=
  { sampleSession with entityPos := some { x := 2, y := 64, z := 0 } }

def escapedState : ControllerState :=
  { connectedState with bot := some escapedSession }

/-- A session one block east and one block north of home. -/
def insideSession : BotSession :=
  { sampleSession with entityPos := some { x := 1, y := 64, z := -1 } }

def insideState : ControllerState :=
  { connectedState with bot := some insideSession }

/-- Initial state whose stored connect target is the empty string. -/
def emptyAddrState : ControllerState :=
  { initState with
    storedSettings := { defaultSettings with serverAddress := "" }, log := [] }

/-- Initial state with the stock placeholder connect target and empty log. -/
def c1WitnessState : ControllerState := { initState with log := [] }

/-- A running state with a pending wander timeout, used to exercise stop. -/
def stopDemoState : ControllerState :=
  { connectedState with timeoutId := true }

/-- A sleeping session with no other player online. -/
def lonelySleeper : BotSession :=
  { sampleSession with isSleeping := true, players := ["MinecraftBot"] }

def wakeDemoState : ControllerState :=
  { connectedState with bot := some lonelySleeper }

/-- Valid settings used to drive a successful start in the event system. -/
def demoSettings : BotSettings :=
  { defaultSettings with serverAddress := "play.example.org" }

def demoEvents : List Event :=
  [Event.settingsUpdate demoSettings, Event.startCmd (some sampleSession)]

/-- A daytime connected state in which shouldSleep does not hold. -/
def wanderDemoState : ControllerState := connectedState

/-- A sleeping session at late dusk, time of day 23500, another player
online. -/
def duskSleeper : BotSession :=
  { sampleSession with isSleeping := true, timeOfDay := some 23500 }

def duskState : ControllerState :=
  { connectedState with bot := some duskSleeper }

/-! Helper lemmas. -/

theorem addConsoleMessage_length_le (l : List ConsoleMessage) (m : ConsoleMessage)
    (h : l.length ≤ 100) : (addConsoleMessage l m).length ≤ 100 := by
  dsimp only [addConsoleMessage]
  split
  · simpa using h
  · simp_all

theorem addConsoleMessage_append (l : List ConsoleMessage) (m : ConsoleMessage)
    (h : l.length ≤ 99) : addConsoleMessage l m = l ++ [m] := by
  unfold addConsoleMessage
  rw [if_neg]
  simp only [List.length_append, List.length_singleton]
  omega

theorem addConsoleMessage_evict (l : List ConsoleMessage) (m : ConsoleMessage)
    (h : l.length = 100) : addConsoleMessage l m = l.tail ++ [m] := by
  unfold addConsoleMessage
  rw [if_pos (by simp [h])]
  cases l with
  | nil => simp at h
  | cons a t => simp

theorem getBotStatus_not_running (s : ControllerState) (h : s.running = false) :
    (getBotStatus s).connected = false := by
  rcases hb : s.bot with _ | b <;> simp [getBotStatus, hb, h, defaultStatus]

/-- Claim C5: the console log never holds more than 100 entries; appending
to a full log of 100 evicts exactly the oldest entry, and appending to a
shorter log is a plain append, so existing entries are never otherwise
modified. -/
theorem consoleLog_ring_bounded (msgs log : List ConsoleMessage) (m : ConsoleMessage) :
    (msgs.foldl addConsoleMessage []).length ≤ 100 ∧
    (log.length = 100 → addConsoleMessage log m = log.tail ++ [m]) ∧
    (log.length < 100 → addConsoleMessage log m = log ++ [m]) := by
  refine ⟨?_, fun h => addConsoleMessage_evict log m h,
    fun h => addConsoleMessage_append log m (by omega)⟩
  have key : ∀ (ms l : List ConsoleMessage), l.length ≤ 100 →
      (ms.foldl addConsoleMessage l).length ≤ 100 := by
    intro ms
    induction ms with
    | nil => intro l h; simpa using h
    | cons a tl ih =>
      intro l h
      simpa using ih (addConsoleMessage l a) (addConsoleMessage_length_le l a h)
  exact key msgs [] (by simp)

theorem consoleLog_ring_bounded_witness :
    addConsoleMessage (List.replicate 100 (mkMsg "x" MsgType.info)) (mkMsg "y" MsgType.info)
      = (List.replicate 100 (mkMsg "x" MsgType.info)).tail ++ [mkMsg "y" MsgType.info] :=
  (consoleLog_ring_bounded [] (List.replicate 100 (mkMsg "x" MsgType.info))
    (mkMsg "y" MsgType.info)).2.1 (by simp)

/-- Claim C9: whenever the controller is not running or has no session,
getBotStatus returns exactly the fixed default snapshot, so no data from a
previous session is exposed after disconnect. -/
theorem getBotStatus_default_when_disconnected (s : ControllerState)
    (h : s.running = false ∨ s.bot = none) :
    getBotStatus s =
      { connected := false, activity := "Idle",
        position := { x := 0, y := 0, z := 0 }, time := "day", players := [],
        area := List.replicate 9 false } := by
  have hd : (defaultStatus : BotStatus) =
      { connected := false, activity := "Idle",
        position := { x := 0, y := 0, z := 0 }, time := "day", players := [],
        area := List.replicate 9 false } := rfl
  rcases h with h | h
  · rcases hb : s.bot with _ | b <;> simp [getBotStatus, hb, h, hd]
  · simp [getBotStatus, h, hd]

theorem getBotStatus_default_when_disconnected_witness :
    getBotStatus initState =
      { connected := false, activity := "Idle",
        position := { x := 0, y := 0, z := 0 }, time := "day", players := [],
        area := List.replicate 9 false } :=
  getBotStatus_default_when_disconnected initState (Or.inr rfl)

/-- Claim C8 counterexample: in a connected awake state the activity string
is "Wandering in 3x3 area", which is none of the three claimed enum values
"Idle", "Wandering", "Sleeping". -/
theorem activity_enum_counterexample :
    (getBotStatus connectedState).activity = "Wandering in 3x3 area" ∧
    ¬((getBotStatus connectedState).activity = "Idle" ∨
      (getBotStatus connectedState).activity = "Wandering" ∨
      (getBotStatus connectedState).activity = "Sleeping") := by
  decide

/-- Claim C8 amended: the activity field is always exactly one of "Idle",
"Sleeping", or the literal string "Wandering in 3x3 area". -/
theorem activity_three_values (s : ControllerState) :
    (getBotStatus s).activity = "Idle" ∨ (getBotStatus s).activity = "Sleeping" ∨
    (getBotStatus s).activity = "Wandering in 3x3 area" := by
  rcases hb : s.bot with _ | b
  · simp [getBotStatus, hb, defaultStatus]
  · by_cases hr : s.running
    · cases hs : b.isSleeping <;> simp [getBotStatus, hb, hr, hs, defaultStatus]
    · simp [getBotStatus, hb, hr, defaultStatus]

/-- Claim C1 counterexample: start() on an empty connect target appends two
explanatory log entries, not exactly one as claimed. -/
theorem start_log_count_counterexample :
    (start emptyAddrState none).log.length = 2 ∧
    ¬((start emptyAddrState none).log.length = 1) := by
  decide

/-- Claim C1 amended: for settings with an empty or placeholder connect
target, start() opens no session, leaves running and connected false, and
appends exactly two explanatory log entries (within the capacity of the
log ring). -/
theorem start_invalid_address (s : ControllerState) (cb : Option BotSession)
    (hrun : s.running = false)
    (haddr : s.storedSettings.serverAddress = "" ∨
      s.storedSettings.serverAddress = placeholderAddress)
    (hlen : s.log.length ≤ 98) :
    (start s cb).bot = s.bot ∧ (start s cb).running = false ∧
    (getBotStatus (start s cb)).connected = false ∧
    (start s cb).log =
      s.log ++ [mkMsg invalidAddrText1 MsgType.error,
        mkMsg invalidAddrText2 MsgType.error] := by
  have hstart : start s cb =
      logMsg (logMsg { s with settings := s.storedSettings } invalidAddrText1 MsgType.error)
        invalidAddrText2 MsgType.error := by
    rcases haddr with h | h <;> simp [start, hrun, h, placeholderAddress]
  refine ⟨by simp [hstart, logMsg], by simp [hstart, logMsg, hrun],
    getBotStatus_not_running _ (by simp [hstart, logMsg, hrun]), ?_⟩
  rw [hstart]
  simp only [logMsg]
  rw [addConsoleMessage_append s.log _ (by omega)]
  rw [addConsoleMessage_append _ _ (by simp; omega)]
  simp

theorem start_invalid_address_witness :
    (start c1WitnessState none).running = false ∧
    (start c1WitnessState none).log =
      [mkMsg invalidAddrText1 MsgType.error, mkMsg invalidAddrText2 MsgType.error] := by
  have h := start_invalid_address c1WitnessState none (by decide)
    (Or.inr (by decide)) (by decide)
  exact ⟨h.2.1, by simpa using h.2.2.2⟩

theorem areaCell_offsets (home : Coord) (dx dz xOff zOff : Int) :
    areaCell home (home.x + dx) (home.z + dz) xOff zOff
      = (decide (dx = xOff) && decide (dz = zOff)) := by
  rw [Bool.eq_iff_iff]
  simp only [areaCell, Bool.and_eq_true, beq_iff_eq, decide_eq_true_eq]
  omega

theorem areaMask_shift (home : Coord) (dx dz : Int) :
    areaMask home (home.x + dx) (home.z + dz) =
      [decide (dx = -1) && decide (dz = -1), decide (dx = 0) && decide (dz = -1),
        decide (dx = 1) && decide (dz = -1),
        decide (dx = -1) && decide (dz = 0), decide (dx = 0) && decide (dz = 0),
        decide (dx = 1) && decide (dz = 0),
        decide (dx = -1) && decide (dz = 1), decide (dx = 0) && decide (dz = 1),
        decide (dx = 1) && decide (dz = 1)] := by
  simp only [areaMask, areaCell_offsets]

theorem areaMask_count (home : Coord) (dx dz : Int) :
    ((|dx| ≤ 1 ∧ |dz| ≤ 1) →
      ((areaMask home (home.x + dx) (home.z + dz)).count true = 1 ∧
        (areaMask home (home.x + dx) (home.z + dz)).get?
          ((dz + 1) * 3 + (dx + 1)).toNat = some true)) ∧
    ((1 < |dx| ∨ 1 < |dz|) →
      (areaMask home (home.x + dx) (home.z + dz)).count true = 0) := by
  rw [areaMask_shift]
  constructor
  · rintro ⟨h1, h2⟩
    obtain ⟨hdx1, hdx2⟩ := abs_le.mp h1
    obtain ⟨hdz1, hdz2⟩ := abs_le.mp h2
    interval_cases dx <;> interval_cases dz <;> decide
  · rintro (h | h)
    · rcases lt_abs.mp h with h | h <;>
      simp only [decide_eq_false (show ¬dx = -1 by omega),
        decide_eq_false (show ¬dx = 0 by omega),
        decide_eq_false (show ¬dx = 1 by omega), Bool.false_and] <;>
      decide
    · rcases lt_abs.mp h with h | h <;>
      simp only [decide_eq_false (show ¬dz = -1 by omega),
        decide_eq_false (show ¬dz = 0 by omega),
        decide_eq_false (show ¬dz = 1 by omega), Bool.and_false] <;>
      decide

/-- Claim C2 counterexample: a connected state with the home set and the
agent two blocks east of home is reported with connected true but an area
mask of zero true cells: the offset is not clamped onto the grid. -/
theorem area_mask_counterexample :
    (getBotStatus escapedState).connected = true ∧
    (getBotStatus escapedState).area.count true = 0 ∧
    ¬((getBotStatus escapedState).area.count true = 1) := by
  decide

/-- Claim C2 amended: when connected with home set, the area mask has
exactly one true cell precisely when the floored position is within
Chebyshev distance 1 of home on the x and z axes, and that cell sits at
row-major index (dz + 1) * 3 + (dx + 1); outside that range the offset is
not clamped and the mask has zero true cells. -/
theorem area_mask_exactly_one (s : ControllerState) (b : BotSession) (p : Vec3q)
    (home : Coord) (hbot : s.bot = some b) (hrun : s.running = true)
    (hp : b.entityPos = some p) (hhome : s.homePosition = some home) :
    ((|⌊p.x⌋ - home.x| ≤ 1 ∧ |⌊p.z⌋ - home.z| ≤ 1) →
      ((getBotStatus s).area.count true = 1 ∧
        (getBotStatus s).area.get?
          ((⌊p.z⌋ - home.z + 1) * 3 + (⌊p.x⌋ - home.x + 1)).toNat = some true)) ∧
    ((1 < |⌊p.x⌋ - home.x| ∨ 1 < |⌊p.z⌋ - home.z|) →
      (getBotStatus s).area.count true = 0) := by
  have harea : (getBotStatus s).area = areaMask home ⌊p.x⌋ ⌊p.z⌋ := by
    simp [getBotStatus, hbot, hrun, hp, hhome]
  obtain ⟨dx, hdx⟩ : ∃ d, ⌊p.x⌋ = home.x + d := ⟨⌊p.x⌋ - home.x, by ring⟩
  obtain ⟨dz, hdz⟩ : ∃ d, ⌊p.z⌋ = home.z + d := ⟨⌊p.z⌋ - home.z, by ring⟩
  rw [harea, hdx, hdz]
  have e1 : home.x + dx - home.x = dx := by ring
  have e2 : home.z + dz - home.z = dz := by ring
  rw [e1, e2]
  exact areaMask_count home dx dz

theorem area_mask_exactly_one_witness :
    (getBotStatus insideState).area.count true = 1 := by
  have h := area_mask_exactly_one insideState insideSession
    { x := 1, y := 64, z := -1 } sampleHome rfl rfl rfl rfl
  exact (h.1 (by decide)).1

/-- Claim C3: stop is idempotent and never raises: a first call while
running flips running to false before the quit attempt (strictly smaller
trace index), clears session and home, and logs success even when the
underlying quit raises; an immediate second call is a no-op apart from a
single info log entry and repeats no stopped side effect; both calls are
total functions of the embedding, every fallible sub-operation being
caught. -/
theorem stop_idempotent_never_throws (s : ControllerState) (qt qt2 : Bool)
    (hrun : s.running = true) :
    ((stop s qt).1.running = false) ∧
    ((stop s qt).1.bot = none) ∧
    ((stop s qt).1.homePosition = none) ∧
    StopEvent.logged (mkMsg stoppedOkText MsgType.info) ∈ (stop s qt).2 ∧
    StopEvent.setRunningFalse ∈ (stop s qt).2 ∧
    (s.bot.isSome = true → StopEvent.quitCalled ∈ (stop s qt).2) ∧
    (stop s qt).2.indexOf StopEvent.setRunningFalse
      < (stop s qt).2.indexOf StopEvent.quitCalled ∧
    ((stop (stop s qt).1 qt2).2
      = [StopEvent.logged (mkMsg alreadyStoppedText MsgType.info)]) ∧
    StopEvent.logged (mkMsg stoppedOkText MsgType.info) ∉ (stop (stop s qt).1 qt2).2 ∧
    ((stop (stop s qt).1 qt2).1
      = logMsg (stop s qt).1 alreadyStoppedText MsgType.info) := by
  have hafter : ∀ s1 : ControllerState, s1.running = false →
      stop s1 qt2 = (logMsg s1 alreadyStoppedText MsgType.info,
        [StopEvent.logged (mkMsg alreadyStoppedText MsgType.info)]) := by
    intro s1 h1
    simp [stop, h1]
  have hfields : (stop s qt).1.running = false ∧ (stop s qt).1.bot = none ∧
      (stop s qt).1.homePosition = none := by
    rcases hb : s.bot with _ | b <;> rcases ht : s.timeoutId <;> cases qt <;>
      exact ⟨by simp [stop, hrun, hb, ht, logMsg], by simp [stop, hrun, hb, ht, logMsg],
        by simp [stop, hrun, hb, ht, logMsg]⟩
  have hmem : StopEvent.logged (mkMsg stoppedOkText MsgType.info) ∈ (stop s qt).2 ∧
      StopEvent.setRunningFalse ∈ (stop s qt).2 ∧
      (s.bot.isSome = true → StopEvent.quitCalled ∈ (stop s qt).2) := by
    rcases hb : s.bot with _ | b <;> rcases ht : s.timeoutId <;> cases qt <;>
      exact ⟨by simp [stop, hrun, hb, ht, logMsg], by simp [stop, hrun, hb, ht, logMsg],
        by simp [stop, hrun, hb, ht, logMsg]⟩
  have hidx : (stop s qt).2.indexOf StopEvent.setRunningFalse
      < (stop s qt).2.indexOf StopEvent.quitCalled := by
    rcases hb : s.bot with _ | b <;> rcases ht : s.timeoutId <;> cases qt
    · rw [show (stop s false).2 = [StopEvent.logged (mkMsg stoppingText MsgType.info),
        StopEvent.setRunningFalse, StopEvent.logged (mkMsg stoppedOkText MsgType.info)]
        from by simp [stop, hrun, hb, ht, logMsg]]
      decide
    · rw [show (stop s true).2 = [StopEvent.logged (mkMsg stoppingText MsgType.info),
        StopEvent.setRunningFalse, StopEvent.logged (mkMsg stoppedOkText MsgType.info)]
        from by simp [stop, hrun, hb, ht, logMsg]]
      decide
    · rw [show (stop s false).2 = [StopEvent.clearedTimeout,
        StopEvent.logged (mkMsg stoppingText MsgType.info), StopEvent.setRunningFalse,
        StopEvent.logged (mkMsg stoppedOkText MsgType.info)]
        from by simp [stop, hrun, hb, ht, logMsg]]
      decide
    · rw [show (stop s true).2 = [StopEvent.clearedTimeout,
        StopEvent.logged (mkMsg stoppingText MsgType.info), StopEvent.setRunningFalse,
        StopEvent.logged (mkMsg stoppedOkText MsgType.info)]
        from by simp [stop, hrun, hb, ht, logMsg]]
      decide
    · rw [show (stop s false).2 = [StopEvent.logged (mkMsg stoppingText MsgType.info),
        StopEvent.setRunningFalse, StopEvent.quitCalled,
        StopEvent.logged (mkMsg stoppedOkText MsgType.info)]
        from by simp [stop, hrun, hb, ht, logMsg]]
      decide
    · rw [show (stop s true).2 = [StopEvent.logged (mkMsg stoppingText MsgType.info),
        StopEvent.setRunningFalse, StopEvent.quitCalled,
        StopEvent.logged (mkMsg quitErrText MsgType.error),
        StopEvent.logged (mkMsg stoppedOkText MsgType.info)]
        from by simp [stop, hrun, hb, ht, logMsg]]
      decide
    · rw [show (stop s false).2 = [StopEvent.clearedTimeout,
        StopEvent.logged (mkMsg stoppingText MsgType.info), StopEvent.setRunningFalse,
        StopEvent.quitCalled, StopEvent.logged (mkMsg stoppedOkText MsgType.info)]
        from by simp [stop, hrun, hb, ht, logMsg]]
      decide
    · rw [show (stop s true).2 = [StopEvent.clearedTimeout,
        StopEvent.logged (mkMsg stoppingText MsgType.info), StopEvent.setRunningFalse,
        StopEvent.quitCalled, StopEvent.logged (mkMsg quitErrText MsgType.error),
        StopEvent.logged (mkMsg stoppedOkText MsgType.info)]
        from by simp [stop, hrun, hb, ht, logMsg]]
      decide
  obtain ⟨h1, h2, h3⟩ := hfields
  obtain ⟨h4, h5, h6⟩ := hmem
  rw [hafter _ h1]
  exact ⟨h1, h2, h3, h4, h5, h6, hidx, rfl, by simp [mkMsg, stoppedOkText, alreadyStoppedText], rfl⟩

theorem stop_idempotent_never_throws_witness :
    (stop stopDemoState true).1.running = false ∧
    StopEvent.logged (mkMsg stoppedOkText MsgType.info) ∈ (stop stopDemoState true).2 ∧
    (stop (stop stopDemoState true).1 false).2
      = [StopEvent.logged (mkMsg alreadyStoppedText MsgType.info)] := by
  obtain ⟨h1, -, -, h4, -, -, -, h8, -, -⟩ :=
    stop_idempotent_never_throws stopDemoState true false rfl
  exact ⟨h1, h4, h8⟩

/-- Claim C4: a participant-leave that leaves zero non-agent participants
while the agent is resting issues a wake attempt immediately (offset 0 of
the cascade) and schedules further attempts at the fixed offsets +500,
+1500 and +3000 ms; every attempt re-checks the rest state first and is a
no-op when the agent is already awake. -/
theorem emergency_wake_cascade (s : ControllerState) (b : BotSession)
    (hbot : s.bot = some b) (hrun : s.running = true)
    (hsleep : b.isSleeping = true) (hothers : (otherPlayers b).length = 0) :
    playerLeftWakeSchedule s = [0, 500, 1500, 3000] ∧
    forceWakeUpNow s = true ∧
    (∀ s1 : ControllerState, ∀ b1 : BotSession, s1.bot = some b1 →
      b1.isSleeping = false → forceWakeUpNow s1 = false) := by
  refine ⟨by simp [playerLeftWakeSchedule, hbot, hothers],
    by simp [forceWakeUpNow, hbot, hrun, hsleep, hothers], ?_⟩
  intro s1 b1 hb1 hs1
  by_cases hr1 : s1.running = false <;> simp [forceWakeUpNow, hb1, hs1, hr1]

theorem emergency_wake_cascade_witness :
    playerLeftWakeSchedule wakeDemoState = [0, 500, 1500, 3000] ∧
    forceWakeUpNow wakeDemoState = true := by
  obtain ⟨h1, h2, -⟩ :=
    emergency_wake_cascade wakeDemoState lonelySleeper rfl rfl rfl (by decide)
  exact ⟨h1, h2⟩

/-- Claim C10: the rest trigger uses the closed night window 13000 to
23000 while the snapshot labels as night every time of day outside 0 to
12999; hence strictly between 23000 and 24000 the snapshot reports night,
the rest trigger does not fire, and for a resting agent with participants
present the daytime standard wake fires. -/
theorem night_window_mismatch (s : ControllerState) (b : BotSession) (t : Int)
    (hbot : s.bot = some b) (hrun : s.running = true)
    (ht : b.timeOfDay = some t) (h1 : 23000 < t) (h2 : t < 24000)
    (hsleep : b.isSleeping = true) (hplayers : 0 < (otherPlayers b).length) :
    (∀ u : Int, isNightTime (some u) = true ↔ (13000 ≤ u ∧ u ≤ 23000)) ∧
    (∀ u : Int, timeLabel u = "night" ↔ ¬(0 ≤ u ∧ u < 13000)) ∧
    (getBotStatus s).time = "night" ∧
    shouldSleep s = false ∧
    checkSleepConditions s = SleepCheckAction.standardWake := by
  have hn : ¬(13000 ≤ t ∧ t ≤ 23000) := by omega
  have hd : ¬(0 ≤ t ∧ t < 13000) := by omega
  refine ⟨?_, ?_, ?_, ?_, ?_⟩
  · intro u; simp [isNightTime]
  · intro u
    rw [timeLabel]
    by_cases hc : 0 ≤ u ∧ u < 13000
    · simp [hc]
    · simp [hc]
  · simp [getBotStatus, hbot, hrun, ht, timeLabel, hd]
  · simp [shouldSleep, hbot, ht, isNightTime, hn]
  · simp [checkSleepConditions, hbot, hrun, hsleep, isNightTime, ht, hn, hplayers]

theorem night_window_mismatch_witness :
    (getBotStatus duskState).time = "night" ∧ shouldSleep duskState = false ∧
    checkSleepConditions duskState = SleepCheckAction.standardWake := by
  obtain ⟨-, -, h3, h4, h5⟩ := night_window_mismatch duskState duskSleeper 23500
    rfl rfl rfl (by decide) (by decide) rfl (by decide)
  exact ⟨h3, h4, h5⟩

theorem offsetOf_range (r : ℚ) (h0 : 0 ≤ r) (h1 : r < 1) :
    -1 ≤ offsetOf r ∧ offsetOf r ≤ 1 := by
  unfold offsetOf
  have hge : (0 : Int) ≤ ⌊r * 3⌋ := Int.floor_nonneg.mpr (by nlinarith)
  have hlt : ⌊r * 3⌋ < 3 := Int.floor_lt.mpr (by push_cast; nlinarith)
  omega

theorem offsetOf_eq_iff (v : Int) (r : ℚ) (_h0 : 0 ≤ r) (_h1 : r < 1) :
    offsetOf r = v ↔ ((v : ℚ) + 1) / 3 ≤ r ∧ r < ((v : ℚ) + 2) / 3 := by
  unfold offsetOf
  rw [sub_eq_iff_eq_add, Int.floor_eq_iff]
  push_cast
  rw [div_le_iff₀ (by norm_num : (0 : ℚ) < 3), lt_div_iff₀ (by norm_num : (0 : ℚ) < 3)]
  constructor
  · rintro ⟨a, b⟩
    constructor <;> linarith
  · rintro ⟨a, b⟩
    constructor <;> linarith

theorem wanderDelay_range (r : ℚ) (_h0 : 0 ≤ r) (h1 : r < 1) :
    5000 ≤ wanderDelay r ∧ wanderDelay r < 8000 := by
  unfold wanderDelay
  constructor <;> nlinarith

theorem wanderDelay_surj (d : ℚ) (h0 : 5000 ≤ d) (h1 : d < 8000) :
    ∃ r : ℚ, 0 ≤ r ∧ r < 1 ∧ wanderDelay r = d := by
  refine ⟨(d - 5000) / 3000, div_nonneg (by linarith) (by norm_num), ?_, ?_⟩
  · rw [div_lt_one (by norm_num : (0 : ℚ) < 3000)]
    linarith
  · unfold wanderDelay
    field_simp

/-- Claim C7: a wander step defers to rest seeking exactly when the rest
conditions hold; otherwise it targets home plus independent offsets in
-1..1 at the home height and reschedules after a delay in [5000, 8000);
the offset of each draw is -1, 0 or 1 according to which third of [0, 1)
the draw fell in (three equal-length preimages, hence uniform, and the two
axes use independent draws), and the delay is an affine bijection of the
unit draw onto [5000, 8000), hence uniform there. -/
theorem wander_step_spec (s : ControllerState) (b : BotSession) (home : Coord)
    (r1 r2 rd : ℚ) (hbot : s.bot = some b) (hhome : s.homePosition = some home)
    (hrun : s.running = true) (hr1a : 0 ≤ r1) (hr1b : r1 < 1)
    (hr2a : 0 ≤ r2) (hr2b : r2 < 1) (hrda : 0 ≤ rd) (hrdb : rd < 1) :
    (shouldSleep s = true → wanderStep s r1 r2 rd = some WanderAction.restSeek) ∧
    (shouldSleep s = false →
      wanderStep s r1 r2 rd = some (WanderAction.move
        { x := home.x + offsetOf r1, y := home.y, z := home.z + offsetOf r2 }
        (wanderDelay rd))) ∧
    (-1 ≤ offsetOf r1 ∧ offsetOf r1 ≤ 1) ∧
    (-1 ≤ offsetOf r2 ∧ offsetOf r2 ≤ 1) ∧
    (∀ v : Int, ∀ r : ℚ, 0 ≤ r → r < 1 →
      (offsetOf r = v ↔ ((v : ℚ) + 1) / 3 ≤ r ∧ r < ((v : ℚ) + 2) / 3)) ∧
    (5000 ≤ wanderDelay rd ∧ wanderDelay rd < 8000) ∧
    (∀ d : ℚ, 5000 ≤ d → d < 8000 →
      ∃ r : ℚ, 0 ≤ r ∧ r < 1 ∧ wanderDelay r = d) ∧
    (∀ a c : ℚ, wanderDelay a = wanderDelay c → a = c) := by
  refine ⟨fun h => by simp [wanderStep, hbot, hhome, hrun, h],
    fun h => by simp [wanderStep, hbot, hhome, hrun, h],
    offsetOf_range r1 hr1a hr1b, offsetOf_range r2 hr2a hr2b,
    fun v r h0 h1 => offsetOf_eq_iff v r h0 h1,
    wanderDelay_range rd hrda hrdb,
    fun d h0 h1 => wanderDelay_surj d h0 h1, ?_⟩
  intro a c h
  unfold wanderDelay at h
  linarith

theorem wander_step_spec_witness :
    wanderStep wanderDemoState 0 (1 / 2) (1 / 2)
      = some (WanderAction.move { x := -1, y := 64, z := 0 } 6500) := by
  obtain ⟨-, h2, -⟩ := wander_step_spec wanderDemoState sampleSession
    sampleHome 0 (1 / 2) (1 / 2) rfl rfl rfl (by norm_num) (by norm_num)
    (by norm_num) (by norm_num) (by norm_num) (by norm_num)
  have e1 : offsetOf 0 = -1 := by norm_num [offsetOf]
  have e2 : offsetOf (1 / 2) = 0 := by norm_num [offsetOf]
  have e3 : wanderDelay (1 / 2) = 6500 := by norm_num [wanderDelay]
  rw [h2 (by decide)]
  simp [sampleHome, e1, e2, e3]
  exact ⟨by norm_num [offsetOf], by norm_num [wanderDelay]⟩

theorem applyEvent_session_inv (s : ControllerState) (e : Event)
    (h : s.bot.isSome = true → s.running = true) :
    (applyEvent s e).bot.isSome = true → (applyEvent s e).running = true := by
  cases e with
  | startCmd cb =>
    simp only [applyEvent]
    by_cases hr : s.running
    · simp [start, hr, logMsg]
    · have hbnone : s.bot = none := by
        rcases hb2 : s.bot with _ | b
        · rfl
        · exact absurd (h (by simp [hb2])) hr
      simp only [start]
      rw [if_neg hr]
      split_ifs with ha
      · simp [logMsg, hbnone]
      · cases cb with
        | none => simp [logMsg, hbnone]
        | some b2 => simp [logMsg]
  | stopCmd qt =>
    simp only [applyEvent]
    by_cases hr : s.running
    · have hb : (stop s qt).1.bot = none := by
        rcases hb2 : s.bot with _ | b <;> rcases ht : s.timeoutId <;> cases qt <;>
          simp [stop, hr, hb2, ht, logMsg]
      simp [hb]
    · have hrf : s.running = false := by simpa using hr
      have hbnone : s.bot = none := by
        rcases hb2 : s.bot with _ | b
        · rfl
        · exact absurd (h (by simp [hb2])) hr
      simp [stop, hrf, logMsg, hbnone]
  | connTimeout =>
    simp only [applyEvent]
    unfold connectionTimeoutFire
    split_ifs with hc
    · simp [logMsg]
    · exact h
  | connError k =>
    simp only [applyEvent]
    rcases hb : s.bot with _ | b
    · unfold connectionErrorFire
      rw [hb]
      exact h
    · cases k <;> simp [connectionErrorFire, hb, logMsg]
  | kicked =>
    simp only [applyEvent]
    rcases hb : s.bot with _ | b
    · unfold kickedFire
      rw [hb]
      exact h
    · simp [kickedFire, hb, logMsg]
  | spawn =>
    simp only [applyEvent]
    rcases hb : s.bot with _ | b
    · unfold spawnFire
      rw [hb]
      exact h
    · simp only [spawnFire, hb, logMsg]
      intro _
      exact h (by simp [hb])
  | settingsUpdate ns =>
    simp only [applyEvent]
    simp only [updateSettings, logMsg]
    split_ifs with hc
    · intro hsome
      exact h (by simpa using hsome)
    · intro hsome
      exact h (by simpa using hsome)
  | sessionUpdate f =>
    rcases hb : s.bot with _ | b
    · simp [applyEvent, hb]
    · simp only [applyEvent, hb]
      intro _
      exact h (by simp [hb])

/-- Claim C6: in every state reachable through the atomic callbacks of the
controller, the session handle is present only while running is true:
every path that clears running (stop, connection timeout, connection
error, kick) also clears the session within the same callback. -/
theorem session_requires_running (evs : List Event) :
    (reachable evs).bot.isSome = true → (reachable evs).running = true := by
  have key : ∀ (l : List Event) (s : ControllerState),
      (s.bot.isSome = true → s.running = true) →
      ((l.foldl applyEvent s).bot.isSome = true →
        (l.foldl applyEvent s).running = true) := by
    intro l
    induction l with
    | nil => intro s h; simpa using h
    | cons e tl ih =>
      intro s h
      exact ih (applyEvent s e) (applyEvent_session_inv s e h)
  exact key evs initState (by intro hsome; simp [initState] at hsome)

theorem session_requires_running_witness :
    (reachable demoEvents).bot.isSome = true ∧
    (reachable demoEvents).running = true := by
  refine ⟨by decide, session_requires_running demoEvents (by decide)⟩

end MinecraftBot
